import Mathlib

/-
Verification of the ICS03 `conn_open_ack` handler
(src/ibc/modules/src/core/ics03_connection/handler/conn_open_ack.rs).

The handler is embedded shallowly: identifiers, versions, commitment
prefixes, client states and proof bytes are abstracted to `Nat`; the four
verification capabilities of the Reader Context (consensus-height
freshness, self-client validation, connection-, client- and
consensus-membership proofs) are oracle functions stored in the context,
matching the capability-interface design of the spec (the bodies of those
functions are not part of the handler under verification).  The field
named `prefix` in the source is rendered `pfx` here.
-/

namespace ConnOpenAck

/-- Handshake states of a connection end (ics03 `State`). -/
inductive State where
  | Uninitialized
  | Init
  | TryOpen
  | Open
deriving DecidableEq

abbrev ClientId := Nat
abbrev ConnectionId := Nat
abbrev Version := Nat
abbrev CommitmentPrefix := Nat
abbrev ClientState := Nat
abbrev ProofBytes := Nat

/-- A (revision number, revision height) pair. -/
structure Height where
  revision_number : Nat
  revision_height : Nat
deriving DecidableEq

/-- The remote side of a connection as held locally (ics03 `Counterparty`):
client identifier, optional connection identifier, commitment prefix
(field `pfx` here). -/
structure Counterparty where
  client_id : ClientId
  connection_id : Option ConnectionId
  pfx : CommitmentPrefix
deriving DecidableEq

/-- `Counterparty::new`. -/
def Counterparty.new (client_id : ClientId) (connection_id : Option ConnectionId)
    (pfx : CommitmentPrefix) : Counterparty :=
  { client_id := client_id, connection_id := connection_id, pfx := pfx }

/-- A connection end (ics03 `ConnectionEnd`): state, local client id,
counterparty, proposed/agreed versions, delay period. -/
structure ConnectionEnd where
  state : State
  client_id : ClientId
  counterparty : Counterparty
  versions : List Version
  delay_period : Nat
deriving DecidableEq

/-- `ConnectionEnd::new`. -/
def ConnectionEnd.new (state : State) (client_id : ClientId)
    (counterparty : Counterparty) (versions : List Version)
    (delay_period : Nat) : ConnectionEnd :=
  { state := state, client_id := client_id, counterparty := counterparty,
    versions := versions, delay_period := delay_period }

/-- `ConnectionEnd::state_matches`. -/
def ConnectionEnd.state_matches (ce : ConnectionEnd) (s : State) : Bool :=
  decide (ce.state = s)

/-- `ConnectionEnd::set_state`. -/
def ConnectionEnd.set_state (ce : ConnectionEnd) (s : State) : ConnectionEnd :=
  { ce with state := s }

/-- Modelled from the spec: `ConnectionEnd::set_version` is not under src/.
Spec §3 invariant 3 and §4.4 say the agreed version recorded when a
connection reaches Open is a single, unambiguous element, so setting the
version replaces the version list with that singleton. -/
def ConnectionEnd.set_version (ce : ConnectionEnd) (v : Version) : ConnectionEnd :=
  { ce with versions := [v] }

/-- `ConnectionEnd::set_counterparty`. -/
def ConnectionEnd.set_counterparty (ce : ConnectionEnd) (c : Counterparty) : ConnectionEnd :=
  { ce with counterparty := c }

/-- A consensus proof: proof bytes together with the consensus height they
attest to. -/
structure ConsensusProof where
  proof : ProofBytes
  height : Height
deriving DecidableEq

/-- The proofs bundle attached to a handshake message: proof height, the
connection-membership (object) proof, and the optional client and
consensus proofs. -/
structure Proofs where
  object_proof : ProofBytes
  client_proof : Option ProofBytes
  consensus_proof : Option ConsensusProof
  height : Height
deriving DecidableEq

/-- `MsgConnectionOpenAck`: connection id, counterparty connection id,
optional client state, proofs bundle, negotiated version. -/
structure MsgConnectionOpenAck where
  connection_id : ConnectionId
  counterparty_connection_id : ConnectionId
  client_state : Option ClientState
  proofs : Proofs
  version : Version
deriving DecidableEq

/-- Modelled from the spec: `MsgConnectionOpenAck::consensus_height` is not
under src/.  Spec §4.4 says the freshness check uses the height embedded in
the consensus proof; when no consensus proof is attached the check is
skipped, so the default value is never consulted by the handler. -/
def MsgConnectionOpenAck.consensus_height (msg : MsgConnectionOpenAck) : Height :=
  match msg.proofs.consensus_proof with
  | some cp => cp.height
  | none => { revision_number := 0, revision_height := 0 }

/-- The error taxonomy exposed by the handler (ics03 `Error`).  The three
trailing constructors stand for the typed failures of the three membership
verification capabilities. -/
inductive Error where
  | connection_not_found (connection_id : ConnectionId)
  | connection_mismatch (connection_id : ConnectionId)
  | invalid_consensus_height
  | implementation_specific (reason : String)
  | ics02_client
  | connection_verification_failure
  | client_state_verification_failure
  | consensus_state_verification_failure
deriving DecidableEq

/-- Provenance of the connection identifier in a result (`ConnectionIdState`). -/
inductive ConnectionIdState where
  | Reused
  | New
deriving DecidableEq

/-- `ConnectionResult`: the sole value carried out of a successful handler. -/
structure ConnectionResult where
  connection_id : ConnectionId
  connection_id_state : ConnectionIdState
  connection_end : ConnectionEnd
deriving DecidableEq

/-- Event attributes (ics03 `events::Attributes`). -/
structure Attributes where
  connection_id : Option ConnectionId
  height : Height
  client_id : ClientId
  counterparty_connection_id : Option ConnectionId
  counterparty_client_id : ClientId
deriving DecidableEq

/-- The events the ack handler can emit. -/
inductive IbcEvent where
  | open_ack_connection (attrs : Attributes)
deriving DecidableEq

/-- `HandlerOutput`: result, log lines, emitted events. -/
structure HandlerOutput where
  result : ConnectionResult
  log : List String
  events : List IbcEvent
deriving DecidableEq

/-- The Reader Context capability surface consumed by the handler, with
the verification capabilities as oracle functions: `consensus_height_ok`
stands for `check_client_consensus_height`, `self_client_ok` for
`validate_self_client`, and the three proof oracles for
`verify_connection_proof`, `verify_client_proof`,
`verify_consensus_proof`, each taking the arguments the handler passes. -/
structure Context where
  connection_ends : ConnectionId → Option ConnectionEnd
  host_height : Height
  commitment_pfx : CommitmentPrefix
  consensus_height_ok : Height → Bool
  self_client_ok : ClientState → Bool
  connection_proof_ok : Height → ConnectionEnd → ConnectionEnd → Height → ProofBytes → Bool
  client_proof_ok : Height → ConnectionEnd → ClientState → Height → ProofBytes → Bool
  consensus_proof_ok : Height → ConnectionEnd → ConsensusProof → Bool

/-- The `state_is_consistent` condition of the handler: the stored end is
Init with the message's version among its versions, or TryOpen with its
first version equal to the message's version. -/
def ack_state_is_consistent (conn_end : ConnectionEnd) (msg : MsgConnectionOpenAck) : Bool :=
  (conn_end.state_matches State.Init && decide (msg.version ∈ conn_end.versions)) ||
  (conn_end.state_matches State.TryOpen && decide (conn_end.versions.get? 0 = some msg.version))

/-- The same condition as a proposition. -/
def AckConsistent (conn_end : ConnectionEnd) (msg : MsgConnectionOpenAck) : Prop :=
  (conn_end.state = State.Init ∧ msg.version ∈ conn_end.versions) ∨
  (conn_end.state = State.TryOpen ∧ conn_end.versions.get? 0 = some msg.version)

/-- The mutation the handler performs on its local working copy: the
counterparty is rebuilt with the message's counterparty connection id
(client id and prefix preserved), the state is set to Open and the version
to the message's version. -/
def ack_mutated_conn_end (conn_end : ConnectionEnd) (msg : MsgConnectionOpenAck) : ConnectionEnd :=
  (((conn_end.set_state State.Open).set_version msg.version).set_counterparty
    (Counterparty.new conn_end.counterparty.client_id
      (some msg.counterparty_connection_id) conn_end.counterparty.pfx))

/-- The expected counterparty connection end built by the handler from the
mutated local copy: state TryOpen, the stored end's counterparty client id
as client id, the local chain as counterparty (local client id, the
message's connection id, the local commitment prefix), the single
message version, the same delay period. -/
def ack_expected_conn (ctx : Context) (msg : MsgConnectionOpenAck)
    (conn_end : ConnectionEnd) : ConnectionEnd :=
  ConnectionEnd.new State.TryOpen conn_end.counterparty.client_id
    (Counterparty.new conn_end.client_id (some msg.connection_id) ctx.commitment_pfx)
    [msg.version] conn_end.delay_period

/-- The `process` function of conn_open_ack.rs, rendered with the same
check order: consensus-height freshness (only when a consensus proof is
attached), connection lookup, state consistency, mutation of the local
copy, construction of the expected counterparty end, presence of client
state / client proof / consensus proof, self-client validation, then the
three membership verifications; on success the result (provenance Reused)
and a single OpenAckConnection event at the host height. -/
def process (ctx : Context) (msg : MsgConnectionOpenAck) : Except Error HandlerOutput :=
  if msg.proofs.consensus_proof.isSome && !(ctx.consensus_height_ok msg.consensus_height) then
    .error Error.invalid_consensus_height
  else
    match ctx.connection_ends msg.connection_id with
    | none => .error (Error.connection_not_found msg.connection_id)
    | some conn_end0 =>
      if !(ack_state_is_consistent conn_end0 msg) then
        .error (Error.connection_mismatch msg.connection_id)
      else
        let conn_end := ack_mutated_conn_end conn_end0 msg
        let expected_conn := ack_expected_conn ctx msg conn_end
        match msg.client_state with
        | none => .error (Error.implementation_specific "client state is required in connOpenTry")
        | some client_state =>
          match msg.proofs.client_proof with
          | none => .error (Error.implementation_specific "client proof is required in connOpenTry")
          | some client_proof =>
            match msg.proofs.consensus_proof with
            | none =>
              .error (Error.implementation_specific "consensus proof is required in connOpenTry")
            | some consensus_proof =>
              if !(ctx.self_client_ok client_state) then
                .error Error.ics02_client
              else if !(ctx.connection_proof_ok msg.proofs.height conn_end expected_conn
                  msg.proofs.height msg.proofs.object_proof) then
                .error Error.connection_verification_failure
              else if !(ctx.client_proof_ok msg.proofs.height conn_end client_state
                  msg.proofs.height client_proof) then
                .error Error.client_state_verification_failure
              else if !(ctx.consensus_proof_ok msg.proofs.height conn_end consensus_proof) then
                .error Error.consensus_state_verification_failure
              else
                .ok
                  { result :=
                      { connection_id := msg.connection_id,
                        connection_id_state := ConnectionIdState.Reused,
                        connection_end := conn_end },
                    log := ["success: connection verification passed"],
                    events :=
                      [IbcEvent.open_ack_connection
                        { connection_id := some msg.connection_id,
                          height := ctx.host_height,
                          client_id := conn_end.client_id,
                          counterparty_connection_id := conn_end.counterparty.connection_id,
                          counterparty_client_id := conn_end.counterparty.client_id }] }

/-- The Bool guard of the handler agrees with the propositional form of
the consistency condition. -/
theorem ack_state_is_consistent_iff (ce : ConnectionEnd) (msg : MsgConnectionOpenAck) :
    ack_state_is_consistent ce msg = true ↔ AckConsistent ce msg := by
  simp [ack_state_is_consistent, AckConsistent, ConnectionEnd.state_matches]

/-- Concrete fixture: a connection end in Init state with the counterparty
connection id already set. -/
def ceW : ConnectionEnd :=
  { state := State.Init, client_id := 10,
    counterparty := { client_id := 20, connection_id := some 1, pfx := 7 },
    versions := [5], delay_period := 4 }

/-- Concrete fixture: a context storing `ceW` under connection id 0, with
every verification oracle accepting. -/
def ctxW : Context :=
  { connection_ends := fun i => if i = 0 then some ceW else none,
    host_height := { revision_number := 0, revision_height := 11 },
    commitment_pfx := 9,
    consensus_height_ok := fun _ => true,
    self_client_ok := fun _ => true,
    connection_proof_ok := fun _ _ _ _ _ => true,
    client_proof_ok := fun _ _ _ _ _ => true,
    consensus_proof_ok := fun _ _ _ => true }

/-- Concrete fixture: a well-formed Ack message for connection id 0 with
all three optional artifacts present. -/
def msgW : MsgConnectionOpenAck :=
  { connection_id := 0, counterparty_connection_id := 2, client_state := some 3,
    proofs :=
      { object_proof := 1, client_proof := some 4,
        consensus_proof := some { proof := 6, height := { revision_number := 0, revision_height := 10 } },
        height := { revision_number := 0, revision_height := 10 } },
    version := 5 }

/-- C1: for every context and Ack message such that the stored connection
end under the message's connection id is Init with the message's version
among its proposed versions, the client state, client proof and consensus
proof are present, and every verification call succeeds, `process` returns
Ok carrying connection_id = the message's connection id, provenance
Reused, and a connection end with state Open, version = the message's
version and counterparty.connection_id = Some of the message's
counterparty connection id; exactly one OpenAckConnection event is
emitted, at the context's current host height. -/
theorem conn_open_ack_success (ctx : Context) (msg : MsgConnectionOpenAck)
    (ce : ConnectionEnd) (cs : ClientState) (cp : ProofBytes) (csp : ConsensusProof)
    (hce : ctx.connection_ends msg.connection_id = some ce)
    (hst : ce.state = State.Init)
    (hv : msg.version ∈ ce.versions)
    (hcs : msg.client_state = some cs)
    (hcp : msg.proofs.client_proof = some cp)
    (hcsp : msg.proofs.consensus_proof = some csp)
    (hh : ctx.consensus_height_ok msg.consensus_height = true)
    (hself : ctx.self_client_ok cs = true)
    (hconn : ctx.connection_proof_ok msg.proofs.height (ack_mutated_conn_end ce msg)
      (ack_expected_conn ctx msg (ack_mutated_conn_end ce msg)) msg.proofs.height
      msg.proofs.object_proof = true)
    (hcl : ctx.client_proof_ok msg.proofs.height (ack_mutated_conn_end ce msg) cs
      msg.proofs.height cp = true)
    (hcons : ctx.consensus_proof_ok msg.proofs.height (ack_mutated_conn_end ce msg) csp = true) :
    ∃ out, process ctx msg = .ok out ∧
      out.result.connection_id = msg.connection_id ∧
      out.result.connection_id_state = ConnectionIdState.Reused ∧
      out.result.connection_end.state = State.Open ∧
      out.result.connection_end.versions = [msg.version] ∧
      out.result.connection_end.counterparty.connection_id = some msg.counterparty_connection_id ∧
      ∃ attrs, out.events = [IbcEvent.open_ack_connection attrs] ∧
        attrs.height = ctx.host_height := by
  have hb : ack_state_is_consistent ce msg = true := by
    simp [ack_state_is_consistent, ConnectionEnd.state_matches, hst, hv]
  have hrun : process ctx msg = Except.ok
      { result :=
          { connection_id := msg.connection_id,
            connection_id_state := ConnectionIdState.Reused,
            connection_end := ack_mutated_conn_end ce msg },
        log := ["success: connection verification passed"],
        events :=
          [IbcEvent.open_ack_connection
            { connection_id := some msg.connection_id,
              height := ctx.host_height,
              client_id := (ack_mutated_conn_end ce msg).client_id,
              counterparty_connection_id :=
                (ack_mutated_conn_end ce msg).counterparty.connection_id,
              counterparty_client_id :=
                (ack_mutated_conn_end ce msg).counterparty.client_id }] } := by
    simp [process, hce, hcs, hcp, hcsp, hb, hh, hself, hconn, hcl, hcons]
  refine ⟨_, hrun, rfl, rfl, ?_, ?_, ?_, ⟨_, rfl, rfl⟩⟩ <;>
    simp [ack_mutated_conn_end, ConnectionEnd.set_state, ConnectionEnd.set_version,
      ConnectionEnd.set_counterparty, Counterparty.new]

/-- Witness for C1 on the concrete fixtures. -/
theorem conn_open_ack_success_witness :
    ∃ out, process ctxW msgW = .ok out ∧
      out.result.connection_id = msgW.connection_id ∧
      out.result.connection_id_state = ConnectionIdState.Reused ∧
      out.result.connection_end.state = State.Open ∧
      out.result.connection_end.versions = [msgW.version] ∧
      out.result.connection_end.counterparty.connection_id =
        some msgW.counterparty_connection_id ∧
      ∃ attrs, out.events = [IbcEvent.open_ack_connection attrs] ∧
        attrs.height = ctxW.host_height :=
  conn_open_ack_success ctxW msgW ceW 3 4
    { proof := 6, height := { revision_number := 0, revision_height := 10 } }
    rfl rfl (by decide) rfl rfl rfl rfl rfl rfl rfl rfl

/-- Helper: when the freshness check is skipped or passes and the lookup
misses, `process` fails with connection_not_found. -/
theorem process_error_not_found (ctx : Context) (msg : MsgConnectionOpenAck)
    (hnone : ctx.connection_ends msg.connection_id = none)
    (hfresh : msg.proofs.consensus_proof = none ∨
      ctx.consensus_height_ok msg.consensus_height = true) :
    process ctx msg = .error (Error.connection_not_found msg.connection_id) := by
  rcases hfresh with hfr | hfr <;> simp [process, hfr, hnone]

/-- Helper: when the freshness check is skipped or passes, the lookup hits
and the consistency condition fails, `process` fails with
connection_mismatch. -/
theorem process_error_mismatch (ctx : Context) (msg : MsgConnectionOpenAck)
    (ce : ConnectionEnd)
    (hce : ctx.connection_ends msg.connection_id = some ce)
    (hbad : ¬ AckConsistent ce msg)
    (hfresh : msg.proofs.consensus_proof = none ∨
      ctx.consensus_height_ok msg.consensus_height = true) :
    process ctx msg = .error (Error.connection_mismatch msg.connection_id) := by
  have hb : ack_state_is_consistent ce msg = false := by
    cases h : ack_state_is_consistent ce msg
    · rfl
    · exact absurd ((ack_state_is_consistent_iff ce msg).mp h) hbad
  rcases hfresh with hfr | hfr <;> simp [process, hfr, hce, hb]

/-- C3: when a connection end exists under the message's connection id but
is neither (Init with the message's version among its versions) nor
(TryOpen with its first version equal to the message's version) — in
particular when it is already Open — and the freshness check is skipped or
passes, `process` returns connection_mismatch carrying that connection id;
replaying an Ack against an Open connection always fails. -/
theorem conn_open_ack_mismatch (ctx : Context) (msg : MsgConnectionOpenAck)
    (ce : ConnectionEnd)
    (hce : ctx.connection_ends msg.connection_id = some ce)
    (hbad : ¬ ((ce.state = State.Init ∧ msg.version ∈ ce.versions) ∨
      (ce.state = State.TryOpen ∧ ce.versions.get? 0 = some msg.version)))
    (hfresh : msg.proofs.consensus_proof = none ∨
      ctx.consensus_height_ok msg.consensus_height = true) :
    process ctx msg = .error (Error.connection_mismatch msg.connection_id) :=
  process_error_mismatch ctx msg ce hce hbad hfresh

/-- Concrete fixture: `ceW` already moved to the Open state. -/
def ceOpen : ConnectionEnd := { ceW with state := State.Open }

/-- Concrete fixture: a context storing the already-Open `ceOpen` under
connection id 0. -/
def ctxOpen : Context :=
  { ctxW with connection_ends := fun i => if i = 0 then some ceOpen else none }

/-- Witness for C3: an Ack replayed against an already-Open connection
fails with connection_mismatch. -/
theorem conn_open_ack_mismatch_witness :
    process ctxOpen msgW = .error (Error.connection_mismatch msgW.connection_id) :=
  conn_open_ack_mismatch ctxOpen msgW ceOpen rfl (by decide) (Or.inr rfl)

/-- C4: when no connection end exists under the message's connection id
and the freshness check is skipped or passes, `process` returns
connection_not_found carrying exactly that connection id (hence never
connection_mismatch). -/
theorem conn_open_ack_not_found (ctx : Context) (msg : MsgConnectionOpenAck)
    (hnone : ctx.connection_ends msg.connection_id = none)
    (hfresh : msg.proofs.consensus_proof = none ∨
      ctx.consensus_height_ok msg.consensus_height = true) :
    process ctx msg = .error (Error.connection_not_found msg.connection_id) ∧
    Error.connection_not_found msg.connection_id ≠
      Error.connection_mismatch msg.connection_id :=
  ⟨process_error_not_found ctx msg hnone hfresh, by simp⟩

/-- Concrete fixture: a context with an empty connection store. -/
def ctxEmpty : Context := { ctxW with connection_ends := fun _ => none }

/-- Witness for C4 on the empty-store fixture. -/
theorem conn_open_ack_not_found_witness :
    process ctxEmpty msgW = .error (Error.connection_not_found msgW.connection_id) ∧
    Error.connection_not_found msgW.connection_id ≠
      Error.connection_mismatch msgW.connection_id :=
  conn_open_ack_not_found ctxEmpty msgW rfl (Or.inr rfl)

/-- C6: when a consensus proof is attached and the freshness check on the
message's embedded consensus height fails, `process` returns
invalid_consensus_height, whatever the rest of the context and message —
in particular even when the referenced connection id is absent. -/
theorem conn_open_ack_stale_consensus (ctx : Context) (msg : MsgConnectionOpenAck)
    (csp : ConsensusProof)
    (hcsp : msg.proofs.consensus_proof = some csp)
    (hbad : ctx.consensus_height_ok msg.consensus_height = false) :
    process ctx msg = .error Error.invalid_consensus_height := by
  simp [process, hcsp, hbad]

/-- Concrete fixture: a context with an empty connection store whose
consensus-height freshness check rejects. -/
def ctxStale : Context :=
  { ctxW with
    connection_ends := (fun _ => none)
    consensus_height_ok := (fun _ => false) }

/-- Witness for C6: the stale consensus height preempts even the missing
connection. -/
theorem conn_open_ack_stale_consensus_witness :
    process ctxStale msgW = .error Error.invalid_consensus_height :=
  conn_open_ack_stale_consensus ctxStale msgW
    { proof := 6, height := { revision_number := 0, revision_height := 10 } } rfl rfl

/-- C5: once the connection lookup and state-consistency checks pass
(with the freshness check skipped or passing), each of client state,
client proof and consensus proof is mandatory, and an absent one yields a
distinct implementation-specific error naming the missing artifact. -/
theorem conn_open_ack_missing_artifact (ctx : Context) (msg : MsgConnectionOpenAck)
    (ce : ConnectionEnd)
    (hce : ctx.connection_ends msg.connection_id = some ce)
    (hcons : AckConsistent ce msg)
    (hfresh : msg.proofs.consensus_proof = none ∨
      ctx.consensus_height_ok msg.consensus_height = true) :
    (msg.client_state = none →
      process ctx msg =
        .error (Error.implementation_specific "client state is required in connOpenTry")) ∧
    (∀ cs, msg.client_state = some cs → msg.proofs.client_proof = none →
      process ctx msg =
        .error (Error.implementation_specific "client proof is required in connOpenTry")) ∧
    (∀ cs p, msg.client_state = some cs → msg.proofs.client_proof = some p →
      msg.proofs.consensus_proof = none →
      process ctx msg =
        .error (Error.implementation_specific "consensus proof is required in connOpenTry")) := by
  have hb : ack_state_is_consistent ce msg = true :=
    (ack_state_is_consistent_iff ce msg).mpr hcons
  refine ⟨?_, ?_, ?_⟩
  · intro hcs
    rcases hfresh with hfr | hfr <;> simp [process, hfr, hce, hb, hcs]
  · intro cs hcs hp
    rcases hfresh with hfr | hfr <;> simp [process, hfr, hce, hb, hcs, hp]
  · intro cs p hcs hp hno
    simp [process, hno, hce, hb, hcs, hp]

/-- Concrete fixture: the well-formed Ack message with its client state
removed. -/
def msgNoCS : MsgConnectionOpenAck := { msgW with client_state := none }

/-- Witness for C5: on the fixture message without a client state, the
first missing-artifact error fires. -/
theorem conn_open_ack_missing_artifact_witness :
    (msgNoCS.client_state = none →
      process ctxW msgNoCS =
        .error (Error.implementation_specific "client state is required in connOpenTry")) ∧
    (∀ cs, msgNoCS.client_state = some cs → msgNoCS.proofs.client_proof = none →
      process ctxW msgNoCS =
        .error (Error.implementation_specific "client proof is required in connOpenTry")) ∧
    (∀ cs p, msgNoCS.client_state = some cs → msgNoCS.proofs.client_proof = some p →
      msgNoCS.proofs.consensus_proof = none →
      process ctxW msgNoCS =
        .error (Error.implementation_specific "consensus proof is required in connOpenTry")) :=
  conn_open_ack_missing_artifact ctxW msgNoCS ceW rfl (Or.inl (by exact ⟨rfl, by decide⟩))
    (Or.inr rfl)

/-- C9: when no consensus proof is attached the freshness check is skipped
entirely — `process` never returns invalid_consensus_height for such a
message — and once the lookup, state-consistency and the client-state and
client-proof presence checks pass it fails with the
implementation-specific error demanding the consensus proof. -/
theorem conn_open_ack_no_consensus_proof (ctx : Context) (msg : MsgConnectionOpenAck)
    (hno : msg.proofs.consensus_proof = none) :
    process ctx msg ≠ .error Error.invalid_consensus_height ∧
    (∀ ce cs p, ctx.connection_ends msg.connection_id = some ce →
      AckConsistent ce msg →
      msg.client_state = some cs → msg.proofs.client_proof = some p →
      process ctx msg =
        .error (Error.implementation_specific "consensus proof is required in connOpenTry")) := by
  constructor
  · cases hc : ctx.connection_ends msg.connection_id with
    | none => simp [process, hno, hc]
    | some ce =>
      cases hb : ack_state_is_consistent ce msg with
      | false => simp [process, hno, hc, hb]
      | true =>
        cases hcs : msg.client_state with
        | none => simp [process, hno, hc, hb, hcs]
        | some cs =>
          cases hp : msg.proofs.client_proof with
          | none => simp [process, hno, hc, hb, hcs, hp]
          | some p => simp [process, hno, hc, hb, hcs, hp]
  · intro ce cs p hce hcons hcs hp
    have hb : ack_state_is_consistent ce msg = true :=
      (ack_state_is_consistent_iff ce msg).mpr hcons
    simp [process, hno, hce, hb, hcs, hp]

/-- Concrete fixture: the well-formed Ack message with its consensus proof
removed. -/
def msgNoCsp : MsgConnectionOpenAck :=
  { msgW with proofs := { msgW.proofs with consensus_proof := none } }

/-- Witness for C9 on the fixture message without a consensus proof. -/
theorem conn_open_ack_no_consensus_proof_witness :
    process ctxW msgNoCsp ≠ .error Error.invalid_consensus_height ∧
    (∀ ce cs p, ctxW.connection_ends msgNoCsp.connection_id = some ce →
      AckConsistent ce msgNoCsp →
      msgNoCsp.client_state = some cs → msgNoCsp.proofs.client_proof = some p →
      process ctxW msgNoCsp =
        .error (Error.implementation_specific "consensus proof is required in connOpenTry")) :=
  conn_open_ack_no_consensus_proof ctxW msgNoCsp rfl

/-- Helper: inversion of a successful run — the result is built from the
mutated local copy of the stored connection end, with provenance Reused. -/
theorem process_ok_inv (ctx : Context) (msg : MsgConnectionOpenAck)
    (out : HandlerOutput)
    (hok : process ctx msg = .ok out) :
    ∃ ce, ctx.connection_ends msg.connection_id = some ce ∧
      out.result.connection_end = ack_mutated_conn_end ce msg ∧
      out.result.connection_id = msg.connection_id ∧
      out.result.connection_id_state = ConnectionIdState.Reused := by
  rw [process] at hok
  simp only [] at hok
  split at hok
  · simp at hok
  · split at hok
    · simp at hok
    · rename_i ce hce
      split at hok
      · simp at hok
      · split at hok
        · simp at hok
        · split at hok
          · simp at hok
          · split at hok
            · simp at hok
            · split at hok
              · simp at hok
              · split at hok
                · simp at hok
                · split at hok
                  · simp at hok
                  · split at hok
                    · simp at hok
                    · injection hok with h
                      subst h
                      exact ⟨ce, hce, rfl, rfl, rfl⟩

/-- Concrete fixture: the output `process` produces on the fixtures `ctxW`
and `msgW`. -/
def outW : HandlerOutput :=
  { result :=
      { connection_id := 0,
        connection_id_state := ConnectionIdState.Reused,
        connection_end :=
          { state := State.Open, client_id := 10,
            counterparty := { client_id := 20, connection_id := some 2, pfx := 7 },
            versions := [5], delay_period := 4 } },
    log := ["success: connection verification passed"],
    events :=
      [IbcEvent.open_ack_connection
        { connection_id := some 0,
          height := { revision_number := 0, revision_height := 11 },
          client_id := 10,
          counterparty_connection_id := some 2,
          counterparty_client_id := 20 }] }

/-- Counterexample to C2 as stated: the stored end under `msgW`'s
connection id already carries counterparty connection id Some 1, yet the
successful run returns Some 2 (the message's counterparty connection id),
overwriting the stored value. -/
theorem conn_open_ack_overwrite_cex :
    ctxW.connection_ends msgW.connection_id = some ceW ∧
    ceW.counterparty.connection_id = some 1 ∧
    process ctxW msgW = .ok outW ∧
    outW.result.connection_end.counterparty.connection_id ≠ some 1 :=
  ⟨rfl, rfl, rfl, by decide⟩

/-- C2 as amended: whenever `process` succeeds on a stored end whose
counterparty connection id was already Some x, the resulting end's
counterparty connection id is Some of the message's counterparty
connection id — the handler overwrites unconditionally, so the stored
value survives exactly when the message repeats it. -/
theorem conn_open_ack_sets_counterparty_id (ctx : Context) (msg : MsgConnectionOpenAck)
    (out : HandlerOutput) (x : ConnectionId) (ce : ConnectionEnd)
    (_hce : ctx.connection_ends msg.connection_id = some ce)
    (_hx : ce.counterparty.connection_id = some x)
    (hok : process ctx msg = .ok out) :
    out.result.connection_end.counterparty.connection_id =
      some msg.counterparty_connection_id := by
  obtain ⟨ce', hce', hend, -, -⟩ := process_ok_inv ctx msg out hok
  rw [hend]
  simp [ack_mutated_conn_end, ConnectionEnd.set_state, ConnectionEnd.set_version,
    ConnectionEnd.set_counterparty, Counterparty.new]

/-- Witness for the amended C2 on the concrete fixtures. -/
theorem conn_open_ack_sets_counterparty_id_witness :
    outW.result.connection_end.counterparty.connection_id =
      some msgW.counterparty_connection_id :=
  conn_open_ack_sets_counterparty_id ctxW msgW outW 1 ceW rfl rfl rfl

/-- C8: a successful run differs from the stored end only in state (Open),
version (the message's version) and counterparty connection id (from the
message): local client id, delay period, counterparty client id and
counterparty prefix are preserved. -/
theorem conn_open_ack_frame (ctx : Context) (msg : MsgConnectionOpenAck)
    (out : HandlerOutput)
    (hok : process ctx msg = .ok out) :
    ∃ ce, ctx.connection_ends msg.connection_id = some ce ∧
      out.result.connection_end.client_id = ce.client_id ∧
      out.result.connection_end.delay_period = ce.delay_period ∧
      out.result.connection_end.counterparty.client_id = ce.counterparty.client_id ∧
      out.result.connection_end.counterparty.pfx = ce.counterparty.pfx ∧
      out.result.connection_end.state = State.Open ∧
      out.result.connection_end.versions = [msg.version] ∧
      out.result.connection_end.counterparty.connection_id =
        some msg.counterparty_connection_id := by
  obtain ⟨ce, hce, hend, -, -⟩ := process_ok_inv ctx msg out hok
  refine ⟨ce, hce, ?_, ?_, ?_, ?_, ?_, ?_, ?_⟩ <;> rw [hend] <;>
    simp [ack_mutated_conn_end, ConnectionEnd.set_state, ConnectionEnd.set_version,
      ConnectionEnd.set_counterparty, Counterparty.new]

/-- Witness for C8 on the concrete fixtures. -/
theorem conn_open_ack_frame_witness :
    ∃ ce, ctxW.connection_ends msgW.connection_id = some ce ∧
      outW.result.connection_end.client_id = ce.client_id ∧
      outW.result.connection_end.delay_period = ce.delay_period ∧
      outW.result.connection_end.counterparty.client_id = ce.counterparty.client_id ∧
      outW.result.connection_end.counterparty.pfx = ce.counterparty.pfx ∧
      outW.result.connection_end.state = State.Open ∧
      outW.result.connection_end.versions = [msgW.version] ∧
      outW.result.connection_end.counterparty.connection_id =
        some msgW.counterparty_connection_id :=
  conn_open_ack_frame ctxW msgW outW rfl

/-- C7: in a run that reaches proof verification, the expected
counterparty connection end handed to the connection-membership check is
built from the mutated local copy and has state TryOpen, client id = the
stored end's counterparty client id, counterparty = (the stored end's
local client id, Some of the message's connection id, the local
commitment prefix), the single message version, and the stored end's
delay period; moreover the run fails with connection_verification_failure
exactly when the membership oracle rejects that very expected end. -/
theorem conn_open_ack_expected_conn_shape (ctx : Context) (msg : MsgConnectionOpenAck)
    (ce : ConnectionEnd) (cs : ClientState) (p : ProofBytes) (csp : ConsensusProof)
    (hce : ctx.connection_ends msg.connection_id = some ce)
    (hcons : AckConsistent ce msg)
    (hcs : msg.client_state = some cs)
    (hp : msg.proofs.client_proof = some p)
    (hcsp : msg.proofs.consensus_proof = some csp)
    (hh : ctx.consensus_height_ok msg.consensus_height = true)
    (hself : ctx.self_client_ok cs = true) :
    (ack_expected_conn ctx msg (ack_mutated_conn_end ce msg)).state = State.TryOpen ∧
    (ack_expected_conn ctx msg (ack_mutated_conn_end ce msg)).client_id =
      ce.counterparty.client_id ∧
    (ack_expected_conn ctx msg (ack_mutated_conn_end ce msg)).counterparty.client_id =
      ce.client_id ∧
    (ack_expected_conn ctx msg (ack_mutated_conn_end ce msg)).counterparty.connection_id =
      some msg.connection_id ∧
    (ack_expected_conn ctx msg (ack_mutated_conn_end ce msg)).counterparty.pfx =
      ctx.commitment_pfx ∧
    (ack_expected_conn ctx msg (ack_mutated_conn_end ce msg)).versions = [msg.version] ∧
    (ack_expected_conn ctx msg (ack_mutated_conn_end ce msg)).delay_period =
      ce.delay_period ∧
    (process ctx msg = .error Error.connection_verification_failure ↔
      ctx.connection_proof_ok msg.proofs.height (ack_mutated_conn_end ce msg)
        (ack_expected_conn ctx msg (ack_mutated_conn_end ce msg)) msg.proofs.height
        msg.proofs.object_proof = false) := by
  have hb : ack_state_is_consistent ce msg = true :=
    (ack_state_is_consistent_iff ce msg).mpr hcons
  refine ⟨rfl, ?_, ?_, rfl, rfl, rfl, ?_, ?_⟩
  · simp [ack_expected_conn, ack_mutated_conn_end, ConnectionEnd.new, Counterparty.new,
      ConnectionEnd.set_state, ConnectionEnd.set_version, ConnectionEnd.set_counterparty]
  · simp [ack_expected_conn, ack_mutated_conn_end, ConnectionEnd.new, Counterparty.new,
      ConnectionEnd.set_state, ConnectionEnd.set_version, ConnectionEnd.set_counterparty]
  · simp [ack_expected_conn, ack_mutated_conn_end, ConnectionEnd.new, Counterparty.new,
      ConnectionEnd.set_state, ConnectionEnd.set_version, ConnectionEnd.set_counterparty]
  · cases hco : ctx.connection_proof_ok msg.proofs.height (ack_mutated_conn_end ce msg)
      (ack_expected_conn ctx msg (ack_mutated_conn_end ce msg)) msg.proofs.height
      msg.proofs.object_proof with
    | false =>
      constructor
      · intro _; rfl
      · intro _
        simp [process, hh, hce, hb, hcs, hp, hcsp, hself, hco]
    | true =>
      constructor
      · intro hrun
        cases hcl : ctx.client_proof_ok msg.proofs.height (ack_mutated_conn_end ce msg) cs
            msg.proofs.height p with
        | false => simp [process, hh, hce, hb, hcs, hp, hcsp, hself, hco, hcl] at hrun
        | true =>
          cases hcc : ctx.consensus_proof_ok msg.proofs.height
              (ack_mutated_conn_end ce msg) csp with
          | false =>
            simp [process, hh, hce, hb, hcs, hp, hcsp, hself, hco, hcl, hcc] at hrun
          | true =>
            simp [process, hh, hce, hb, hcs, hp, hcsp, hself, hco, hcl, hcc] at hrun
      · intro hfalse
        cases hfalse

/-- Witness for C7 on the concrete fixtures. -/
theorem conn_open_ack_expected_conn_shape_witness :
    (ack_expected_conn ctxW msgW (ack_mutated_conn_end ceW msgW)).state = State.TryOpen ∧
    (ack_expected_conn ctxW msgW (ack_mutated_conn_end ceW msgW)).client_id =
      ceW.counterparty.client_id ∧
    (ack_expected_conn ctxW msgW (ack_mutated_conn_end ceW msgW)).counterparty.client_id =
      ceW.client_id ∧
    (ack_expected_conn ctxW msgW (ack_mutated_conn_end ceW msgW)).counterparty.connection_id =
      some msgW.connection_id ∧
    (ack_expected_conn ctxW msgW (ack_mutated_conn_end ceW msgW)).counterparty.pfx =
      ctxW.commitment_pfx ∧
    (ack_expected_conn ctxW msgW (ack_mutated_conn_end ceW msgW)).versions = [msgW.version] ∧
    (ack_expected_conn ctxW msgW (ack_mutated_conn_end ceW msgW)).delay_period =
      ceW.delay_period ∧
    (process ctxW msgW = .error Error.connection_verification_failure ↔
      ctxW.connection_proof_ok msgW.proofs.height (ack_mutated_conn_end ceW msgW)
        (ack_expected_conn ctxW msgW (ack_mutated_conn_end ceW msgW)) msgW.proofs.height
        msgW.proofs.object_proof = false) :=
  conn_open_ack_expected_conn_shape ctxW msgW ceW 3 4
    { proof := 6, height := { revision_number := 0, revision_height := 10 } }
    rfl (Or.inl ⟨rfl, by decide⟩) rfl rfl rfl rfl rfl

/-- Counterexample to C10 as stated: the fixture message is missing its
client state and references a connection id absent from the fixture
context, yet because its consensus proof carries a stale height the run
returns invalid_consensus_height, not connection_not_found. -/
theorem conn_open_ack_precedence_cex :
    msgNoCS.client_state = none ∧
    ctxStale.connection_ends msgNoCS.connection_id = none ∧
    process ctxStale msgNoCS = .error Error.invalid_consensus_height ∧
    Error.invalid_consensus_height ≠
      Error.connection_not_found msgNoCS.connection_id :=
  ⟨rfl, rfl, rfl, by decide⟩

/-- C10 as amended: provided the consensus-height freshness check is
skipped or passes, the connection lookup and the state-consistency check
take precedence over the mandatory-artifact checks — a message missing
client state, client proof or consensus proof still gets
connection_not_found when no end is stored, and connection_mismatch when
the stored end is inconsistent, never the missing-artifact error. -/
theorem conn_open_ack_precedence (ctx : Context) (msg : MsgConnectionOpenAck)
    (_hmiss : msg.client_state = none ∨ msg.proofs.client_proof = none ∨
      msg.proofs.consensus_proof = none)
    (hfresh : msg.proofs.consensus_proof = none ∨
      ctx.consensus_height_ok msg.consensus_height = true) :
    (ctx.connection_ends msg.connection_id = none →
      process ctx msg = .error (Error.connection_not_found msg.connection_id)) ∧
    (∀ ce, ctx.connection_ends msg.connection_id = some ce → ¬ AckConsistent ce msg →
      process ctx msg = .error (Error.connection_mismatch msg.connection_id)) := by
  constructor
  · intro hnone
    exact process_error_not_found ctx msg hnone hfresh
  · intro ce hce hbad
    exact process_error_mismatch ctx msg ce hce hbad hfresh

/-- Witness for the amended C10: the client state is missing and the
connection absent, the freshness check passes, and the run returns
connection_not_found. -/
theorem conn_open_ack_precedence_witness :
    (ctxEmpty.connection_ends msgNoCS.connection_id = none →
      process ctxEmpty msgNoCS =
        .error (Error.connection_not_found msgNoCS.connection_id)) ∧
    (∀ ce, ctxEmpty.connection_ends msgNoCS.connection_id = some ce →
      ¬ AckConsistent ce msgNoCS →
      process ctxEmpty msgNoCS =
        .error (Error.connection_mismatch msgNoCS.connection_id)) :=
  conn_open_ack_precedence ctxEmpty msgNoCS (Or.inl rfl) (Or.inr rfl)

end ConnOpenAck
